import Mathlib

/-!
Verification of the Senate LDA Dashboard pipeline (src/app.py): query-parameter
building, paginated fetching, and record normalization. Each definition is a
shallow embedding of the corresponding Python/pandas code; theorems settle the
specification's claims about them.
-/

namespace LDA

/-- A raw filing record, as flattened by `pd.json_normalize` (src/app.py line 167).
Each field is `Option (Option v)`: the outer `Option` records whether the JSON key
path is present at all in the record (absence of the key everywhere means
`json_normalize` creates no column for it), the inner one whether its value is
non-null. `registrant_name` stands for the dotted path `registrant.name`, and
`client_name` for `client.name`. -/
structure RawRecord where
  registrant_name : Option (Option String)
  client_name : Option (Option String)
  filing_type : Option (Option String)
  income : Option (Option Int)
  expenses : Option (Option Int)
  filing_year : Option (Option Int)
  dt_posted : Option (Option String)
deriving DecidableEq, Repr

/-- The API query-parameter mapping built at src/app.py lines 82-110. A field is
`none` exactly when the corresponding key is absent from the `params` dict. -/
structure Params where
  registrant_name : Option String := none
  client_name : Option String := none
  filing_type : Option String := none
  filing_amount_reported_min : Option Nat := none
  filing_amount_reported_max : Option Nat := none
  filing_dt_posted_after : Option String := none
  filing_dt_posted_before : Option String := none
deriving DecidableEq, Repr

/-- A calendar date as held by the `st.date_input` widget. -/
structure Date where
  year : Nat
  month : Nat
  day : Nat
deriving DecidableEq, Repr

/-- Left-pad the decimal representation of `n` with zeros to width `width`. -/
def zeroPad (width n : Nat) : String :=
  let s := toString n
  String.mk (List.replicate (width - s.length) '0') ++ s

/-- Embedding of `date.strftime("%Y-%m-%d")` (src/app.py lines 107-108) on the
widget's reachable range (years 2000..today, so four digits). -/
def formatDate (d : Date) : String :=
  zeroPad 4 d.year ++ "-" ++ zeroPad 2 d.month ++ "-" ++ zeroPad 2 d.day

/-- The validated form input handed to the pipeline (sidebar widgets,
src/app.py lines 36-64): `amount_min`/`amount_max` are non-negative by the
widgets' `min_value=0`, and `date_range` has length 0, 1 or 2. -/
structure Query where
  registrant_input : String
  client_input : String
  filing_types : List String
  amount_min : Nat
  amount_max : Nat
  date_range : List Date
deriving Repr

/-- Embedding of the date-range block, src/app.py lines 105-110: the two date
parameters (or `none`) and whether the "Please select both a Start and End
date" warning fired. -/
def buildDates (date_range : List Date) : Option String × Option String × Bool :=
  match date_range with
  | [start_date, end_date] =>
      (some (formatDate start_date), some (formatDate end_date), false)
  | [_] => (none, none, true)
  | _ => (none, none, false)

/-- Embedding of the parameter-building block, src/app.py lines 82-110. Returns
the `params` mapping together with the warning flag of line 110. -/
def buildParams (q : Query) : Params × Bool :=
  let d := buildDates q.date_range
  ({ registrant_name :=
       if q.registrant_input.trim ≠ "" then some q.registrant_input.trim else none
     client_name :=
       if q.client_input.trim ≠ "" then some q.client_input.trim else none
     filing_type :=
       if q.filing_types ≠ [] then
         if q.filing_types.length = 1 then q.filing_types.head? else none
       else none
     filing_amount_reported_min :=
       if q.amount_min > 0 then some q.amount_min else none
     filing_amount_reported_max :=
       if q.amount_max > 0 ∧ q.amount_max ≥ q.amount_min then some q.amount_max
       else none
     filing_dt_posted_after := d.1
     filing_dt_posted_before := d.2.1 }, d.2.2)

/-- The filings endpoint, src/app.py line 8. -/
def BASE_URL : String := "https://lda.senate.gov/api/v1/filings/"

/-- A parsed HTTP response as the fetch loop consumes it: status code, raw body
(reported on error), the `results` array and the `next` field of the JSON
payload (src/app.py lines 138-146). -/
structure ServerResponse where
  status : Nat
  body : String
  results : List RawRecord
  next : Option String
deriving DecidableEq, Repr

/-- One GET request issued by the loop: the URL hit and whether the query
parameters were attached (src/app.py lines 133-136). -/
structure Request where
  url : String
  withParams : Bool
deriving DecidableEq, Repr

/-- Why the pagination loop stopped: `next` became null, the page cap was
reached, or a non-200 response ended the search (src/app.py lines 131, 138-140). -/
inductive StopReason where
  | exhausted
  | capReached
  | httpError (status : Nat) (body : String)
deriving DecidableEq, Repr

/-- Outcome of one fetch run: the accumulated `all_filings`, the log of GET
requests issued, and the stop reason. -/
structure FetchResult where
  records : List RawRecord
  requests : List Request
  stop : StopReason
deriving DecidableEq, Repr

/-- Embedding of the pagination `while` loop, src/app.py lines 131-154. The
server is abstracted as a function from (URL, optional attached params) to the
parsed response. `fuel` is `max_pages - page_count`, so the loop guard
`next_url and page_count < max_pages` is `next_url` non-null and `fuel > 0`;
params are attached only when `page_count == 0` (lines 133-136); a non-200
response reports the status and body and breaks, keeping `all_filings`
(lines 138-140); otherwise `results` is appended and `next_url` follows the
response's `next` field (lines 142-147). -/
def fetchAux (server : String → Option Params → ServerResponse) (params : Params) :
    Nat → Nat → Option String → List RawRecord → FetchResult
  | _, _, none, all_filings => ⟨all_filings, [], .exhausted⟩
  | 0, _, some _, all_filings => ⟨all_filings, [], .capReached⟩
  | fuel + 1, page_count, some url, all_filings =>
      let response :=
        if page_count = 0 then server url (some params) else server url none
      if response.status ≠ 200 then
        ⟨all_filings, [⟨url, page_count == 0⟩],
          .httpError response.status response.body⟩
      else
        let rest := fetchAux server params fuel (page_count + 1) response.next
          (all_filings ++ response.results)
        ⟨rest.records, ⟨url, page_count == 0⟩ :: rest.requests, rest.stop⟩

/-- One full fetch run, src/app.py lines 118-154: start at `BASE_URL` with
`page_count = 0` and `all_filings = []`. -/
def fetchData (server : String → Option Params → ServerResponse) (params : Params)
    (max_pages : Nat) : FetchResult :=
  fetchAux server params max_pages 0 (some BASE_URL) []

/-- The derived `Amount Reported` column, src/app.py lines 171-178. Presence of
`income`/`expenses` is decided per COLUMN across the whole record list
(`'income' in df.columns` holds when any record carries the key); when both
columns exist, `df.fillna` replaces each null `income` cell by the `expenses`
cell of the same row (which may itself be null); when neither exists, the
whole column is the scalar 0. Cell values are `Option Int` with `none` for
NaN. -/
def deriveAmount (records : List RawRecord) : List (Option Int) :=
  if records.any (fun r => r.income.isSome) ∧ records.any (fun r => r.expenses.isSome) then
    records.map (fun r => (r.income.join).orElse (fun _ => r.expenses.join))
  else if records.any (fun r => r.income.isSome) then
    records.map (fun r => r.income.join)
  else if records.any (fun r => r.expenses.isSome) then
    records.map (fun r => r.expenses.join)
  else
    records.map (fun _ => some 0)

/-- A row of the cleaned table `df_clean` (src/app.py lines 192-193), after
column selection and renaming. Cells of columns absent from the flattened frame
are `none`, as are NaN cells of present columns. -/
structure CleanRow where
  registrantName : Option String
  clientName : Option String
  reportType : Option String
  amountReported : Option Int
  filingYear : Option Int
  posted : Option String
deriving DecidableEq, Repr

/-- The cleaned table: which of the mapped columns are actually present
(`available_cols`, src/app.py line 192 — `Amount Reported` is always present
since lines 171-178 always create it), plus the rows. -/
structure CleanTable where
  hasRegistrantName : Bool
  hasClientName : Bool
  hasReportType : Bool
  hasFilingYear : Bool
  hasPosted : Bool
  rows : List CleanRow
deriving DecidableEq, Repr

/-- Embedding of flattening, `Amount Reported` derivation and column
selection/renaming, src/app.py lines 167-193. A column is available exactly
when some record carries its key path. -/
def normalizeBase (records : List RawRecord) : CleanTable :=
  { hasRegistrantName := records.any (fun r => r.registrant_name.isSome)
    hasClientName := records.any (fun r => r.client_name.isSome)
    hasReportType := records.any (fun r => r.filing_type.isSome)
    hasFilingYear := records.any (fun r => r.filing_year.isSome)
    hasPosted := records.any (fun r => r.dt_posted.isSome)
    rows := (records.zip (deriveAmount records)).map (fun ra =>
      { registrantName := ra.1.registrant_name.join
        clientName := ra.1.client_name.join
        reportType := ra.1.filing_type.join
        amountReported := ra.2
        filingYear := ra.1.filing_year.join
        posted := ra.1.dt_posted.join }) }

/-- Embedding of the in-memory report-type filter, src/app.py lines 197-198:
when more than one report type was selected, `df_clean['Report Type']` is read
unconditionally — a `KeyError` if the column is absent, modelled as the error
value — and rows whose Report Type is in the selected list are kept
(`Series.isin` is false on NaN cells). -/
def applyTypeFilter (filing_types : List String) (t : CleanTable) :
    Except String CleanTable :=
  if filing_types.length > 1 then
    if t.hasReportType then
      .ok { t with rows := t.rows.filter (fun row =>
              match row.reportType with
              | some v => filing_types.contains v
              | none => false) }
    else
      .error "KeyError: Report Type"
  else
    .ok t

/-- The whole Record Normalizer, src/app.py lines 167-198: flatten/derive/select
then the client-side report-type filter. -/
def normalize (records : List RawRecord) (filing_types : List String) :
    Except String CleanTable :=
  applyTypeFilter filing_types (normalizeBase records)

/-- The user-visible outcome after fetching, src/app.py lines 163-201: the
"No records found" branch or the "Found n records" success message. -/
inductive DisplayState where
  | noMatches
  | success (count : Nat)
deriving DecidableEq, Repr

/-- Embedding of the post-fetch dispatch, src/app.py lines 163-201: the
no-matches warning fires exactly when `all_filings` is empty (line 163);
otherwise the normalizer runs (propagating its `KeyError` as the error value)
and success reports `len(df_clean)` (line 201). -/
def display (all_filings : List RawRecord) (filing_types : List String) :
    Except String DisplayState :=
  if all_filings.isEmpty then .ok .noMatches
  else (normalize all_filings filing_types).map (fun t => .success t.rows.length)

/-- A record carrying only `income`/`expenses` keys, as in the spec's
coalescing example. -/
def mkAmountRec (inc exp : Option (Option Int)) : RawRecord :=
  ⟨none, none, none, inc, exp, none, none⟩

/-- The spec's coalescing example input:
income 100 / expenses 50 / income 10 and expenses 20 / empty record. -/
def c1Records : List RawRecord :=
  [mkAmountRec (some (some 100)) none,
   mkAmountRec none (some (some 50)),
   mkAmountRec (some (some 10)) (some (some 20)),
   mkAmountRec none none]

/-- A record carrying only a `filing_type` value. -/
def mkTypedRec (t : String) : RawRecord :=
  ⟨none, none, some (some t), none, none, none, none⟩

/-! ## Claim C1: Amount Reported coalescing -/

/-- C1, counterexample: on the spec's own example input the derived sequence is
NOT `[100, 50, 10, 0]` — the last record, empty while both columns exist, gets
a null cell (`fillna` of NaN with NaN), not the default 0. -/
theorem amount_example_cex :
    ¬ deriveAmount c1Records = [some 100, some 50, some 10, some 0] := by
  decide

/-- C1, amended: presence of `income`/`expenses` is decided per column over the
whole record list, not per record. Row-wise: when both columns are present the
cell is income-where-non-null-else-expenses (null when the record has neither
value); when only one column is present its cell is used verbatim; the default
0 applies only when neither field appears in any record. On the example input
the derived sequence is `[100, 50, 10, null]`. -/
theorem amount_coalesce_amended :
    deriveAmount c1Records = [some 100, some 50, some 10, none] ∧
    ∀ (records : List RawRecord) (i : Nat) (r : RawRecord), records[i]? = some r →
      (deriveAmount records)[i]? =
        some (if records.any (fun x => x.income.isSome) then
                if records.any (fun x => x.expenses.isSome) then
                  (r.income.join).orElse (fun _ => r.expenses.join)
                else r.income.join
              else if records.any (fun x => x.expenses.isSome) then
                r.expenses.join
              else some 0) := by
  constructor
  · decide
  · intro records i r h
    have hi : i < records.length := by
      by_contra hc
      rw [List.getElem?_len_le (Nat.le_of_not_lt hc)] at h
      exact Option.noConfusion h
    have hr : records[i] = r := by
      rw [List.getElem?_eq_getElem hi] at h
      exact Option.some.inj h
    cases h1 : records.any (fun x => x.income.isSome) <;>
      cases h2 : records.any (fun x => x.expenses.isSome) <;>
        simp [deriveAmount, h1, h2, List.getElem?_map, List.getElem?_replicate,
          hi, h, hr]

/-- C1, witness: the amended row-wise rule applied to the empty record of the
example input yields a null cell. -/
theorem amount_coalesce_amended_witness :
    (deriveAmount c1Records)[3]? =
      some (if c1Records.any (fun x => x.income.isSome) then
              if c1Records.any (fun x => x.expenses.isSome) then
                ((mkAmountRec none none).income.join).orElse
                  (fun _ => (mkAmountRec none none).expenses.join)
              else (mkAmountRec none none).income.join
            else if c1Records.any (fun x => x.expenses.isSome) then
              (mkAmountRec none none).expenses.join
            else some 0) :=
  amount_coalesce_amended.2 c1Records 3 (mkAmountRec none none) (by decide)

/-! ## Claim C2: singular filing_type parameter -/

/-- C2: the parameter set contains `filing_type` iff exactly one report-type
code is selected. -/
theorem filing_type_param_iff (q : Query) :
    ((buildParams q).1.filing_type).isSome = true ↔ q.filing_types.length = 1 := by
  rcases hf : q.filing_types with _ | ⟨t, _ | ⟨u, rest⟩⟩ <;>
    simp [buildParams, hf]

/-- A concrete query with a single selected report type. -/
def qSingleType : Query :=
  ⟨"Microsoft", "", ["Q1"], 0, 0, []⟩

/-- C2, witness: instantiation at a concrete single-selection query. -/
theorem filing_type_param_iff_witness :
    ((buildParams qSingleType).1.filing_type).isSome = true ↔
      qSingleType.filing_types.length = 1 :=
  filing_type_param_iff qSingleType

/-! ## Claim C6: amount min/max parameters -/

/-- C6: `filing_amount_reported_min` is present iff min > 0, and
`filing_amount_reported_max` iff max > 0 and max ≥ min; in particular a
positive max below min is omitted. -/
theorem amount_params_iff (q : Query) :
    (((buildParams q).1.filing_amount_reported_min).isSome = true ↔
      0 < q.amount_min) ∧
    (((buildParams q).1.filing_amount_reported_max).isSome = true ↔
      0 < q.amount_max ∧ q.amount_min ≤ q.amount_max) := by
  constructor <;> · simp only [buildParams]
                    split_ifs with h <;> simp_all

/-- A concrete query with max below min: max must be omitted. -/
def qAmounts : Query :=
  ⟨"Microsoft", "", [], 10000, 5000, []⟩

/-- C6, witness: instantiation at a concrete query with 0 < max < min. -/
theorem amount_params_iff_witness :
    ((buildParams qAmounts).1.filing_amount_reported_max).isSome = true ↔
      0 < qAmounts.amount_max ∧ qAmounts.amount_min ≤ qAmounts.amount_max :=
  (amount_params_iff qAmounts).2

/-! ## Claim C5: date-range parameters and warning -/

/-- C5: a two-element date range emits both date parameters in the
`strftime("%Y-%m-%d")` form with no warning; a one-element range emits neither
parameter and warns; an empty range emits neither parameter and no warning. -/
theorem date_params_cases (q : Query) :
    (∀ s e, q.date_range = [s, e] →
      (buildParams q).1.filing_dt_posted_after = some (formatDate s) ∧
      (buildParams q).1.filing_dt_posted_before = some (formatDate e) ∧
      (buildParams q).2 = false) ∧
    (q.date_range.length = 1 →
      (buildParams q).1.filing_dt_posted_after = none ∧
      (buildParams q).1.filing_dt_posted_before = none ∧
      (buildParams q).2 = true) ∧
    (q.date_range.length = 0 →
      (buildParams q).1.filing_dt_posted_after = none ∧
      (buildParams q).1.filing_dt_posted_before = none ∧
      (buildParams q).2 = false) := by
  refine ⟨fun s e h => ?_, fun h => ?_, fun h => ?_⟩
  · simp [buildParams, buildDates, h]
  · rcases hd : q.date_range with _ | ⟨a, _ | ⟨b, r⟩⟩
    · simp [hd] at h
    · simp [buildParams, buildDates, hd]
    · simp [hd] at h
  · rcases hd : q.date_range with _ | ⟨a, r⟩
    · simp [buildParams, buildDates, hd]
    · simp [hd] at h

/-- A concrete query with a full date range. -/
def qTwoDates : Query :=
  ⟨"Microsoft", "", [], 0, 0, [⟨2023, 1, 5⟩, ⟨2024, 11, 30⟩]⟩

/-- A concrete query with only a start date. -/
def qOneDate : Query :=
  ⟨"Microsoft", "", [], 0, 0, [⟨2023, 1, 5⟩]⟩

/-- C5, witness: the two-date query emits both parameters (in `YYYY-MM-DD`
form) and the one-date query warns and emits neither. -/
theorem date_params_cases_witness :
    ((buildParams qTwoDates).1.filing_dt_posted_after =
        some (formatDate ⟨2023, 1, 5⟩) ∧
      (buildParams qTwoDates).1.filing_dt_posted_before =
        some (formatDate ⟨2024, 11, 30⟩) ∧
      (buildParams qTwoDates).2 = false) ∧
    ((buildParams qOneDate).1.filing_dt_posted_after = none ∧
      (buildParams qOneDate).1.filing_dt_posted_before = none ∧
      (buildParams qOneDate).2 = true) ∧
    formatDate ⟨2023, 1, 5⟩ = "2023-01-05" :=
  ⟨(date_params_cases qTwoDates).1 ⟨2023, 1, 5⟩ ⟨2024, 11, 30⟩ rfl,
   (date_params_cases qOneDate).2.1 rfl, rfl⟩

/-! ## Claim C3: page cap bounds the number of requests -/

/-- Each loop iteration issues one GET and burns one unit of fuel, so the
request log is bounded by the remaining fuel. -/
lemma fetchAux_requests_length_le (server : String → Option Params → ServerResponse)
    (params : Params) (fuel : Nat) :
    ∀ (page_count : Nat) (next_url : Option String) (all_filings : List RawRecord),
      (fetchAux server params fuel page_count next_url all_filings).requests.length
        ≤ fuel := by
  induction fuel with
  | zero =>
      intro pc url acc
      cases url <;> simp [fetchAux]
  | succ n ih =>
      intro pc url acc
      cases url with
      | none => simp [fetchAux]
      | some u =>
          simp only [fetchAux]
          generalize (if pc = 0 then server u (some params) else server u none) = resp
          split <;>
            first
              | (simp only [List.length_cons, Nat.add_le_add_iff_right]
                 exact ih _ _ _)
              | (simp only [List.length_singleton]; omega)

/-- C3: a fetch run issues at most `max_pages` GET requests, whatever the
server replies — in particular even if `next` is never null. -/
theorem fetch_page_cap (server : String → Option Params → ServerResponse)
    (params : Params) (max_pages : Nat) :
    (fetchData server params max_pages).requests.length ≤ max_pages := by
  unfold fetchData
  exact fetchAux_requests_length_le server params max_pages 0 (some BASE_URL) []

/-! ## Claim C4: partial results survive a failing page -/

/-- C4: when page 1 succeeds with records `rs` and the page-2 response has a
non-200 status, the run keeps `rs` and reports the error status and body. -/
theorem fetch_partial_results_kept (server : String → Option Params → ServerResponse)
    (params : Params) (max_pages : Nat) (body1 : String) (rs : List RawRecord)
    (u2 : String) (c : Nat) (body2 : String) (rest2 : List RawRecord)
    (n2 : Option String)
    (h1 : server BASE_URL (some params) = ⟨200, body1, rs, some u2⟩)
    (h2 : server u2 none = ⟨c, body2, rest2, n2⟩)
    (h3 : c ≠ 200) (h4 : 2 ≤ max_pages) :
    (fetchData server params max_pages).records = rs ∧
    (fetchData server params max_pages).stop = .httpError c body2 := by
  obtain ⟨m, rfl⟩ : ∃ m, max_pages = m + 2 := ⟨max_pages - 2, by omega⟩
  rw [show m + 2 = (m + 1) + 1 from rfl]
  unfold fetchData
  simp [fetchAux, h1, h2, h3]

/-- The parameter dict built from an all-empty query. -/
def noParams : Params := {}

/-- Twenty-five records, one server page's worth. -/
def pageOneRecords : List RawRecord := List.replicate 25 (mkTypedRec "Q1")

/-- A server that serves 25 records on page 1 and answers 403 afterwards. -/
def srvFailing : String → Option Params → ServerResponse := fun url _ =>
  if url = BASE_URL then
    ⟨200, "", pageOneRecords, some "https://lda.senate.gov/api/v1/filings/?page=2"⟩
  else ⟨403, "Forbidden", [], none⟩

/-- C4, witness: a 403 on page 2 after 25 records from page 1 yields those 25
records plus the fetch-error report. -/
theorem fetch_partial_results_kept_witness :
    (fetchData srvFailing noParams 5).records = pageOneRecords ∧
    (fetchData srvFailing noParams 5).stop = .httpError 403 "Forbidden" :=
  fetch_partial_results_kept srvFailing noParams 5 "" pageOneRecords
    "https://lda.senate.gov/api/v1/filings/?page=2" 403 "Forbidden" [] none
    rfl rfl (by decide) (by decide)

/-! ## Claim C8: params only on the first request; empty pages continue -/

/-- Request `i` of a loop started at `page_count` carries the parameter set
exactly when `page_count + i = 0`. -/
lemma fetchAux_withParams (server : String → Option Params → ServerResponse)
    (params : Params) (fuel : Nat) :
    ∀ (page_count : Nat) (next_url : Option String) (acc : List RawRecord)
      (i : Nat) (req : Request),
      (fetchAux server params fuel page_count next_url acc).requests[i]? = some req →
      req.withParams = (page_count + i == 0) := by
  induction fuel with
  | zero =>
      intro pc url acc i req h
      cases url <;> simp [fetchAux] at h
  | succ n ih =>
      intro pc url acc i req h
      cases url with
      | none => simp [fetchAux] at h
      | some u =>
          simp only [fetchAux] at h
          generalize (if pc = 0 then server u (some params) else server u none) = resp
            at h
          split at h <;> cases i with
          | zero =>
              simp only [List.getElem?_cons_zero, Option.some.injEq] at h
              simp [← h]
          | succ j =>
              first
                | (simp only [List.getElem?_cons_succ] at h
                   rw [ih (pc + 1) _ _ j req h]
                   congr 1
                   omega)
                | simp at h

/-- C8: in every fetch run the parameter set rides only on request 0, and a
200 page with an empty `results` array but a non-null `next` contributes no
records and lets the loop continue at the next URL. -/
theorem first_request_params (server : String → Option Params → ServerResponse)
    (params : Params) (max_pages : Nat) :
    (∀ (i : Nat) (req : Request),
      (fetchData server params max_pages).requests[i]? = some req →
      req.withParams = (i == 0)) ∧
    (∀ (fuel page_count : Nat) (url u2 : String) (acc : List RawRecord),
      (if page_count = 0 then server url (some params) else server url none).status
          = 200 →
      (if page_count = 0 then server url (some params) else server url none).results
          = [] →
      (if page_count = 0 then server url (some params) else server url none).next
          = some u2 →
      fetchAux server params (fuel + 1) page_count (some url) acc =
        ⟨(fetchAux server params fuel (page_count + 1) (some u2) acc).records,
         ⟨url, page_count == 0⟩ ::
           (fetchAux server params fuel (page_count + 1) (some u2) acc).requests,
         (fetchAux server params fuel (page_count + 1) (some u2) acc).stop⟩) := by
  constructor
  · intro i req h
    have := fetchAux_withParams server params max_pages 0 (some BASE_URL) [] i req
      (by simpa [fetchData] using h)
    simpa using this
  · intro fuel page_count url u2 acc hs hr hn
    simp only [fetchAux]
    rw [hs, hr, hn]
    simp

/-- A server whose first page is empty but chains to a second page. -/
def srvEmptyPage : String → Option Params → ServerResponse := fun url _ =>
  if url = BASE_URL then ⟨200, "", [], some "https://lda.senate.gov/api/v1/filings/?page=2"⟩
  else ⟨200, "", [mkTypedRec "Q1"], none⟩

/-- C8, witness: on a concrete two-page run the second request carries no
params, and the empty first page steps to page 2 without adding records. -/
theorem first_request_params_witness :
    (Request.withParams
        ⟨"https://lda.senate.gov/api/v1/filings/?page=2", false⟩ : Bool)
        = (1 == 0) ∧
    fetchAux srvEmptyPage noParams 4 0 (some BASE_URL) [] =
      ⟨(fetchAux srvEmptyPage noParams 3 1
          (some "https://lda.senate.gov/api/v1/filings/?page=2") []).records,
       ⟨BASE_URL, 0 == 0⟩ ::
         (fetchAux srvEmptyPage noParams 3 1
           (some "https://lda.senate.gov/api/v1/filings/?page=2") []).requests,
       (fetchAux srvEmptyPage noParams 3 1
         (some "https://lda.senate.gov/api/v1/filings/?page=2") []).stop⟩ :=
  ⟨(first_request_params srvEmptyPage noParams 5).1 1
     ⟨"https://lda.senate.gov/api/v1/filings/?page=2", false⟩ (by decide),
   (first_request_params srvEmptyPage noParams 5).2 3 0 BASE_URL
     "https://lda.senate.gov/api/v1/filings/?page=2" [] rfl rfl rfl⟩

/-! ## Claim C7: client-side report-type filter -/

/-- C7: with more than one selected code (and the Report Type column present)
the filtered table keeps exactly the rows whose Report Type is in the selected
set; with one or zero codes the table passes through unfiltered. -/
theorem multi_type_filter (records : List RawRecord) (filing_types : List String) :
    (1 < filing_types.length → (normalizeBase records).hasReportType = true →
      ∃ t, normalize records filing_types = .ok t ∧
        ∀ row, row ∈ t.rows ↔ (row ∈ (normalizeBase records).rows ∧
          ∃ v, row.reportType = some v ∧ v ∈ filing_types)) ∧
    (filing_types.length ≤ 1 →
      normalize records filing_types = .ok (normalizeBase records)) := by
  constructor
  · intro h1 h2
    have hres : normalize records filing_types =
        .ok { normalizeBase records with
                rows := (normalizeBase records).rows.filter (fun row =>
                  match row.reportType with
                  | some v => filing_types.contains v
                  | none => false) } := by
      simp [normalize, applyTypeFilter, h1, h2]
    refine ⟨_, hres, fun row => ?_⟩
    simp only [List.mem_filter]
    constructor
    · rintro ⟨hm, hv⟩
      refine ⟨hm, ?_⟩
      cases hrt : row.reportType with
      | none => rw [hrt] at hv; simp at hv
      | some v =>
          rw [hrt] at hv
          simp only at hv
          exact ⟨v, rfl, by simpa using hv⟩
    · rintro ⟨hm, v, hrt, hv⟩
      exact ⟨hm, by simp [hrt, hv]⟩
  · intro h
    have hn : ¬ filing_types.length > 1 := by omega
    simp [normalize, applyTypeFilter, hn]

/-- The spec's filter example: rows with Report Type Q1, Q3, Q2. -/
def c7Records : List RawRecord :=
  [mkTypedRec "Q1", mkTypedRec "Q3", mkTypedRec "Q2"]

/-- C7, witness: filtering the Q1/Q3/Q2 table by the selection Q1, Q2 keeps
exactly the Q1 and Q2 rows. -/
theorem multi_type_filter_witness :
    ∃ t, normalize c7Records ["Q1", "Q2"] = .ok t ∧
      ∀ row, row ∈ t.rows ↔ (row ∈ (normalizeBase c7Records).rows ∧
        ∃ v, row.reportType = some v ∧ v ∈ ["Q1", "Q2"]) :=
  (multi_type_filter c7Records ["Q1", "Q2"]).1 (by decide) (by decide)

/-! ## Claim C9: unconditional Report Type access can fail -/

/-- C9: when more than one code is selected but no fetched record carries a
`filing_type` key, the flattened frame has no Report Type column and the
filter's unconditional `df_clean['Report Type']` access errors out instead of
producing a table. -/
theorem missing_report_type_error (records : List RawRecord)
    (filing_types : List String) (h1 : 1 < filing_types.length)
    (h2 : ∀ r ∈ records, r.filing_type = none) :
    normalize records filing_types = .error "KeyError: Report Type" := by
  have hcol : (normalizeBase records).hasReportType = false := by
    simp only [normalizeBase, List.any_eq_false]
    intro r hr
    simp [h2 r hr]
  simp [normalize, applyTypeFilter, h1, hcol]

/-- C9, witness: a one-record fetch with only an `income` field, filtered by a
two-code selection, hits the error branch. -/
theorem missing_report_type_error_witness :
    normalize [mkAmountRec (some (some 100)) none] ["Q1", "Q2"] =
      .error "KeyError: Report Type" :=
  missing_report_type_error _ _ (by decide) (by decide)

/-! ## Claim C10: no-matches is decided by the raw-record list alone -/

/-- C10: the "no matches" state fires exactly when zero raw records were
accumulated; whenever records were fetched and the normalizer succeeds, the
run reports success with the final table's row count — even when the
client-side filter emptied it. -/
theorem no_matches_from_fetch_only (records : List RawRecord)
    (filing_types : List String) :
    (display records filing_types = .ok .noMatches ↔ records = []) ∧
    (∀ t, normalize records filing_types = .ok t → records ≠ [] →
      display records filing_types = .ok (.success t.rows.length)) := by
  constructor
  · constructor
    · intro h
      rcases hr : records with _ | ⟨a, l⟩
      · rfl
      · exfalso
        rw [hr] at h
        rcases hn : normalize (a :: l) filing_types with e | t <;>
          rw [display] at h <;> simp [hn, Except.map] at h
    · intro h
      rw [h]
      rfl
  · intro t ht hne
    rcases hr : records with _ | ⟨a, l⟩
    · exact absurd hr hne
    · rw [hr] at ht
      rw [display]
      simp [ht, Except.map]

/-- A fetch result whose single record survives no filter: Report Type Q3
against a Q1/Q2 selection. -/
def c10Records : List RawRecord := [mkTypedRec "Q3"]

/-- C10, witness: one fetched record, filtered away entirely, is still
reported as a success with count 0, not as the no-matches state. -/
theorem no_matches_from_fetch_only_witness :
    display c10Records ["Q1", "Q2"] = .ok (.success 0) := by
  have h := (no_matches_from_fetch_only c10Records ["Q1", "Q2"]).2
    ⟨false, false, true, false, false, []⟩ rfl (by decide)
  simpa using h

end LDA


